import Mathlib

/-!
# Verification of the trading bias forecaster engine

Shallow embedding of the `BiasCalculator` class (`src/js/calculator.js`) and of
the form validation in `src/js/main.js`.  JS numbers are modelled as rationals
(`ℚ`); every comparison and arithmetic operation performed by the engine on the
validated inputs (`high > low`, so no division by zero, no NaN) is exact, so
the rational model agrees with the JS float semantics on the decision logic the
claims are about.  The `reasoning` log and the `recommendation` sentence are
presentational strings built by template interpolation of numbers; no claim
depends on them and they are not modelled.  The momentum note at the end of
`analyzeCandlePatterns` only appends to `reasoning` and is likewise omitted.
-/

/-- Models how a numeric output is rendered in the result object:
`raw v` is the plain JS number placed in the result with no formatting applied,
`fix5 v` models the string `v.toFixed(5)` (fixed-point, five decimal places),
`fix1 v` models `v.toFixed(1)` (one decimal place).  The constructors record
the formatting the source applies to each emitted number. -/
inductive Rendered where
  | raw (v : ℚ)
  | fix5 (v : ℚ)
  | fix1 (v : ℚ)
deriving DecidableEq

/-- True exactly when the value was rendered with `toFixed(5)`. -/
def Rendered.isFix5 : Rendered → Bool
  | .fix5 _ => true
  | _ => false

/-- The numeric value carried by a rendered output. -/
def Rendered.value : Rendered → ℚ
  | .raw v => v
  | .fix5 v => v
  | .fix1 v => v

/-- Result of `analyzeCandleType` in the source.  The source's `open` field is
called `openPrice` here (`open` is a Lean keyword); `close`/`high`/`low` are
renamed consistently. -/
structure CandleProfile where
  type : String
  isBullish : Bool
  isBearish : Bool
  isDoji : Bool
  strength : Int
  body : ℚ
  bodyPercent : Rendered
  upperWick : ℚ
  lowerWick : ℚ
  hasUpperWickRejection : Bool
  hasLowerWickRejection : Bool
  openPrice : ℚ
  closePrice : ℚ
  highPrice : ℚ
  lowPrice : ℚ
deriving DecidableEq

/-- `analyzeCandleType(open, close, high, low)` from the source.  The source
computes `type`/`strength` by an `isDoji` / `isBullish` / `isBearish` chain;
`bodyPercent` is stored rendered to one decimal (`toFixed(1)`). -/
def analyzeCandleType (o close high low : ℚ) : CandleProfile :=
  let body := |close - o|
  let range := high - low
  let bodyPercent := (body / range) * 100
  let upperWick := high - max o close
  let lowerWick := min o close - low
  let typeStrength : String × Int :=
    if bodyPercent < 10 then ("DOJI", 0)
    else if close > o then
      if bodyPercent > 70 then ("STRONG BULLISH", 3)
      else if bodyPercent > 50 then ("BULLISH", 2)
      else ("WEAK BULLISH", 1)
    else if close < o then
      if bodyPercent > 70 then ("STRONG BEARISH", -3)
      else if bodyPercent > 50 then ("BEARISH", -2)
      else ("WEAK BEARISH", -1)
    else ("NEUTRAL", 0)
  { type := typeStrength.1
    isBullish := decide (close > o)
    isBearish := decide (close < o)
    isDoji := decide (bodyPercent < 10)
    strength := typeStrength.2
    body := body
    bodyPercent := Rendered.fix1 bodyPercent
    upperWick := upperWick
    lowerWick := lowerWick
    hasUpperWickRejection := decide (upperWick > body * 2)
    hasLowerWickRejection := decide (lowerWick > body * 2)
    openPrice := o
    closePrice := close
    highPrice := high
    lowPrice := low }

/-- The parsed state held by a `BiasCalculator` instance (its constructor
`parseFloat`s the eight OHLC fields and keeps the symbol). -/
structure Calc where
  dbpdHigh : ℚ
  dbpdLow : ℚ
  dbpdOpen : ℚ
  dbpdClose : ℚ
  pdHigh : ℚ
  pdLow : ℚ
  pdOpen : ℚ
  pdClose : ℚ
  symbol : String
deriving DecidableEq

/-- `this.dbpdCandle` computed in the constructor. -/
def dbpdCandle (c : Calc) : CandleProfile :=
  analyzeCandleType c.dbpdOpen c.dbpdClose c.dbpdHigh c.dbpdLow

/-- `this.pdCandle` computed in the constructor. -/
def pdCandle (c : Calc) : CandleProfile :=
  analyzeCandleType c.pdOpen c.pdClose c.pdHigh c.pdLow

/-- `this.pdMidpoint`. -/
def pdMidpoint (c : Calc) : ℚ := (c.pdHigh + c.pdLow) / 2

/-- `this.pdRange`. -/
def pdRange (c : Calc) : ℚ := c.pdHigh - c.pdLow

/-- `this.dbpdMidpoint`. -/
def dbpdMidpoint (c : Calc) : ℚ := (c.dbpdHigh + c.dbpdLow) / 2

/-- `this.dbpdRange`. -/
def dbpdRange (c : Calc) : ℚ := c.dbpdHigh - c.dbpdLow

/-- The scenario flag object (`analysis.scenario`).  The source stores it as a
dynamically keyed object whose keys are only ever set to `true`; reading an
unset key is falsy, so a fixed record of booleans defaulting to `false` is the
faithful model. -/
structure Scenario where
  reversalUp : Bool := false
  reversalDown : Bool := false
  upperRejection : Bool := false
  lowerRejection : Bool := false
  indecision : Bool := false
  breakoutHigh : Bool := false
  fakeBreakoutHigh : Bool := false
  breakoutLow : Bool := false
  fakeBreakoutLow : Bool := false
  insideBar : Bool := false
  outsideBar : Bool := false
  uptrend : Bool := false
  downtrend : Bool := false
deriving DecidableEq

/-- `analysis.keyLevels`, populated by `analyzeLiquiditySweeps`. -/
structure KeyLevels where
  pdHigh : ℚ
  pdLow : ℚ
  pdOpen : ℚ
  pdClose : ℚ
  pdMid : ℚ
  dbpdHigh : ℚ
  dbpdLow : ℚ
  dbpdOpen : ℚ
  dbpdClose : ℚ
  dbpdMid : ℚ
deriving DecidableEq

/-- One entry of a setup's `targets` list. -/
structure Target where
  level : Rendered
  label : String
deriving DecidableEq

/-- A trade setup (`analysis.bullishSetup` / `analysis.bearishSetup` once
assigned).  `entryZone` is the template string `a - b` in the source, modelled
as the ordered pair of its two rendered bounds. -/
structure TradeSetup where
  sweepLevel : Rendered
  entryZone : Rendered × Rendered
  invalidation : Rendered
  targets : List Target
deriving DecidableEq

/-- The `analysis` accumulator/result object of `calculateBias`.  `bullishSetup`
and `bearishSetup` start as empty objects in the source and are either left
empty or assigned a full setup; `none` models the empty object.  `keyLevels`
starts empty and is assigned once.  The append-only `reasoning` string log and
the `recommendation` sentence are presentational and not modelled. -/
structure Analysis where
  bias : String
  direction : String
  strength : Int
  confluence : Int
  dbpdProfile : CandleProfile
  pdProfile : CandleProfile
  scenario : Scenario
  bullishSetup : Option TradeSetup
  bearishSetup : Option TradeSetup
  keyLevels : Option KeyLevels
deriving DecidableEq

/-- The initial `analysis` literal at the top of `calculateBias` (its
`candleAnalysis` holds the two constructor-computed profiles). -/
def initAnalysis (c : Calc) : Analysis :=
  { bias := "NEUTRAL"
    direction := "No Clear Direction"
    strength := 0
    confluence := 0
    dbpdProfile := dbpdCandle c
    pdProfile := pdCandle c
    scenario := {}
    bullishSetup := none
    bearishSetup := none
    keyLevels := none }

/-- First block of `analyzeCandlePatterns`: two consecutive bullish
candles. -/
def patternBothBullish (c : Calc) (a : Analysis) : Analysis :=
  if (dbpdCandle c).isBullish && (pdCandle c).isBullish then
    { a with confluence := a.confluence + 2 } else a

/-- Second block of `analyzeCandlePatterns`: two consecutive bearish
candles. -/
def patternBothBearish (c : Calc) (a : Analysis) : Analysis :=
  if (dbpdCandle c).isBearish && (pdCandle c).isBearish then
    { a with confluence := a.confluence - 2 } else a

/-- Third block of `analyzeCandlePatterns`: bearish-to-bullish reversal. -/
def patternReversalUp (c : Calc) (a : Analysis) : Analysis :=
  if (dbpdCandle c).isBearish && (pdCandle c).isBullish then
    { a with
      confluence := a.confluence + 1
      scenario := { a.scenario with reversalUp := true } } else a

/-- Fourth block of `analyzeCandlePatterns`: bullish-to-bearish reversal. -/
def patternReversalDown (c : Calc) (a : Analysis) : Analysis :=
  if (dbpdCandle c).isBullish && (pdCandle c).isBearish then
    { a with
      confluence := a.confluence - 1
      scenario := { a.scenario with reversalDown := true } } else a

/-- Fifth block of `analyzeCandlePatterns`: D-1 upper-wick rejection. -/
def patternUpperRejection (c : Calc) (a : Analysis) : Analysis :=
  if (pdCandle c).hasUpperWickRejection then
    { a with
      confluence := a.confluence - 1
      scenario := { a.scenario with upperRejection := true } } else a

/-- Sixth block of `analyzeCandlePatterns`: D-1 lower-wick rejection. -/
def patternLowerRejection (c : Calc) (a : Analysis) : Analysis :=
  if (pdCandle c).hasLowerWickRejection then
    { a with
      confluence := a.confluence + 1
      scenario := { a.scenario with lowerRejection := true } } else a

/-- Seventh block of `analyzeCandlePatterns`: D-1 doji indecision flag. -/
def patternIndecision (c : Calc) (a : Analysis) : Analysis :=
  if (pdCandle c).isDoji then
    { a with scenario := { a.scenario with indecision := true } } else a

/-- `analyzeCandlePatterns` (confluence and scenario-flag effects, in source
order; the two pure-reasoning pushes — candle info and the momentum note —
have no effect on the modelled state). -/
def analyzeCandlePatterns (c : Calc) (a : Analysis) : Analysis :=
  patternIndecision c (patternLowerRejection c (patternUpperRejection c
    (patternReversalDown c (patternReversalUp c (patternBothBearish c
      (patternBothBullish c a))))))

/-- The high-breakout block of `analyzePriceStructure`: sets `breakoutHigh` and
adds `+1`, then either adds `+1` more (close above D-2 high) or sets
`fakeBreakoutHigh`. -/
def breakoutHighCheck (c : Calc) (a : Analysis) : Analysis :=
  if c.pdHigh > c.dbpdHigh then
    let a1 := { a with
      scenario := { a.scenario with breakoutHigh := true }
      confluence := a.confluence + 1 }
    if c.pdClose > c.dbpdHigh then { a1 with confluence := a1.confluence + 1 }
    else { a1 with scenario := { a1.scenario with fakeBreakoutHigh := true } }
  else a

/-- The low-breakout block of `analyzePriceStructure` (mirror of the high
block). -/
def breakoutLowCheck (c : Calc) (a : Analysis) : Analysis :=
  if c.pdLow < c.dbpdLow then
    let a1 := { a with
      scenario := { a.scenario with breakoutLow := true }
      confluence := a.confluence - 1 }
    if c.pdClose < c.dbpdLow then { a1 with confluence := a1.confluence - 1 }
    else { a1 with scenario := { a1.scenario with fakeBreakoutLow := true } }
  else a

/-- The inside-bar block of `analyzePriceStructure` (flag only). -/
def insideBarCheck (c : Calc) (a : Analysis) : Analysis :=
  if c.pdHigh ≤ c.dbpdHigh ∧ c.pdLow ≥ c.dbpdLow then
    { a with scenario := { a.scenario with insideBar := true } }
  else a

/-- The outside-bar block of `analyzePriceStructure`. -/
def outsideBarCheck (c : Calc) (a : Analysis) : Analysis :=
  if c.pdHigh > c.dbpdHigh ∧ c.pdLow < c.dbpdLow then
    let a1 := { a with scenario := { a.scenario with outsideBar := true } }
    if c.pdClose > c.pdOpen then { a1 with confluence := a1.confluence + 2 }
    else { a1 with confluence := a1.confluence - 2 }
  else a

/-- The uptrend block of `analyzePriceStructure`. -/
def uptrendCheck (c : Calc) (a : Analysis) : Analysis :=
  if c.pdHigh > c.dbpdHigh ∧ c.pdLow > c.dbpdLow then
    { a with
      scenario := { a.scenario with uptrend := true }
      confluence := a.confluence + 2 }
  else a

/-- The downtrend block of `analyzePriceStructure`. -/
def downtrendCheck (c : Calc) (a : Analysis) : Analysis :=
  if c.pdHigh < c.dbpdHigh ∧ c.pdLow < c.dbpdLow then
    { a with
      scenario := { a.scenario with downtrend := true }
      confluence := a.confluence - 2 }
  else a

/-- `analyzePriceStructure`: the six comment-separated blocks, in source
order. -/
def analyzePriceStructure (c : Calc) (a : Analysis) : Analysis :=
  downtrendCheck c (uptrendCheck c (outsideBarCheck c (insideBarCheck c
    (breakoutLowCheck c (breakoutHighCheck c a)))))

/-- `analyzeLiquiditySweeps`: populates `keyLevels` and adds the close-position
confluence delta. -/
def analyzeLiquiditySweeps (c : Calc) (a : Analysis) : Analysis :=
  let kl : KeyLevels :=
    { pdHigh := c.pdHigh, pdLow := c.pdLow, pdOpen := c.pdOpen,
      pdClose := c.pdClose, pdMid := pdMidpoint c,
      dbpdHigh := c.dbpdHigh, dbpdLow := c.dbpdLow, dbpdOpen := c.dbpdOpen,
      dbpdClose := c.dbpdClose, dbpdMid := dbpdMidpoint c }
  let a1 := { a with keyLevels := some kl }
  let pdClosePosition := ((c.pdClose - c.pdLow) / pdRange c) * 100
  if pdClosePosition > 75 then { a1 with confluence := a1.confluence + 1 }
  else if pdClosePosition < 25 then { a1 with confluence := a1.confluence - 1 }
  else a1

/-- `determineForecastBias`: the first-match priority chain.  Each source
branch assigns bias/direction/strength (and a setup) and returns; the early
returns are modelled as a nested if/else chain. -/
def determineForecastBias (c : Calc) (a : Analysis) : Analysis :=
  if a.scenario.fakeBreakoutHigh then
    { a with
      bias := "BEARISH REVERSAL"
      direction := "LOOK FOR SELL"
      strength := 85
      bearishSetup := some
        { sweepLevel := Rendered.raw c.pdHigh
          entryZone := (Rendered.raw c.pdHigh, Rendered.fix5 (c.pdHigh * 1.0005))
          invalidation := Rendered.fix5 (c.pdHigh + pdRange c * 0.3)
          targets := [
            { level := Rendered.fix5 c.pdClose, label := "PD Close" },
            { level := Rendered.fix5 c.pdLow, label := "PD Low" },
            { level := Rendered.fix5 c.dbpdLow, label := "D-2 Low" }] } }
  else if a.scenario.fakeBreakoutLow then
    { a with
      bias := "BULLISH REVERSAL"
      direction := "LOOK FOR BUY"
      strength := 85
      bullishSetup := some
        { sweepLevel := Rendered.raw c.pdLow
          entryZone := (Rendered.fix5 (c.pdLow * 0.9995), Rendered.raw c.pdLow)
          invalidation := Rendered.fix5 (c.pdLow - pdRange c * 0.3)
          targets := [
            { level := Rendered.fix5 c.pdClose, label := "PD Close" },
            { level := Rendered.fix5 c.pdHigh, label := "PD High" },
            { level := Rendered.fix5 c.dbpdHigh, label := "D-2 High" }] } }
  else if a.scenario.uptrend && (pdCandle c).isBullish then
    { a with
      bias := "BULLISH CONTINUATION"
      direction := "BUY PULLBACKS"
      strength := min (75 + a.confluence * 3) 95
      bullishSetup := some
        { sweepLevel := Rendered.raw c.pdLow
          entryZone := (Rendered.fix5 (c.pdLow - pdRange c * 0.2), Rendered.raw c.pdLow)
          invalidation := Rendered.fix5 c.dbpdLow
          targets := [
            { level := Rendered.fix5 c.pdHigh, label := "Equal PD High" },
            { level := Rendered.fix5 (c.pdHigh + pdRange c * 0.5), label := "Extension 1" },
            { level := Rendered.fix5 (c.pdHigh + pdRange c), label := "Extension 2" }] } }
  else if a.scenario.downtrend && (pdCandle c).isBearish then
    { a with
      bias := "BEARISH CONTINUATION"
      direction := "SELL RALLIES"
      strength := min (75 + |a.confluence| * 3) 95
      bearishSetup := some
        { sweepLevel := Rendered.raw c.pdHigh
          entryZone := (Rendered.raw c.pdHigh, Rendered.fix5 (c.pdHigh + pdRange c * 0.2))
          invalidation := Rendered.fix5 c.dbpdHigh
          targets := [
            { level := Rendered.fix5 c.pdLow, label := "Equal PD Low" },
            { level := Rendered.fix5 (c.pdLow - pdRange c * 0.5), label := "Extension 1" },
            { level := Rendered.fix5 (c.pdLow - pdRange c), label := "Extension 2" }] } }
  else if a.scenario.insideBar then
    let verdict : String × String × Int :=
      if (pdCandle c).isBullish then ("BULLISH BREAKOUT", "BUY ABOVE PD HIGH", 70)
      else if (pdCandle c).isBearish then ("BEARISH BREAKOUT", "SELL BELOW PD LOW", 70)
      else ("NEUTRAL - WAIT", "TRADE BREAKOUT", 50)
    { a with
      bias := verdict.1
      direction := verdict.2.1
      strength := verdict.2.2
      bullishSetup := some
        { sweepLevel := Rendered.raw c.pdHigh
          entryZone := (Rendered.raw c.pdHigh, Rendered.fix5 (c.pdHigh * 1.001))
          invalidation := Rendered.fix5 c.pdLow
          targets := [
            { level := Rendered.fix5 c.dbpdHigh, label := "D-2 High" },
            { level := Rendered.fix5 (c.dbpdHigh + pdRange c), label := "Measured Move" }] }
      bearishSetup := some
        { sweepLevel := Rendered.raw c.pdLow
          entryZone := (Rendered.fix5 (c.pdLow * 0.999), Rendered.raw c.pdLow)
          invalidation := Rendered.fix5 c.pdHigh
          targets := [
            { level := Rendered.fix5 c.dbpdLow, label := "D-2 Low" },
            { level := Rendered.fix5 (c.dbpdLow - pdRange c), label := "Measured Move" }] } }
  else if a.confluence ≥ 3 then
    { a with
      bias := "BULLISH"
      direction := "LOOK FOR BUY SETUPS"
      strength := min (60 + a.confluence * 5) 95
      bullishSetup := some
        { sweepLevel := Rendered.raw c.pdLow
          entryZone := (Rendered.fix5 (c.pdLow - pdRange c * 0.15), Rendered.raw c.pdLow)
          invalidation := Rendered.fix5 c.dbpdLow
          targets := [
            { level := Rendered.fix5 c.pdHigh, label := "PD High" },
            { level := Rendered.fix5 (c.pdHigh + pdRange c * 0.618), label := "1.618 Extension" }] } }
  else if a.confluence ≤ -3 then
    { a with
      bias := "BEARISH"
      direction := "LOOK FOR SELL SETUPS"
      strength := min (60 + |a.confluence| * 5) 95
      bearishSetup := some
        { sweepLevel := Rendered.raw c.pdHigh
          entryZone := (Rendered.raw c.pdHigh, Rendered.fix5 (c.pdHigh + pdRange c * 0.15))
          invalidation := Rendered.fix5 c.dbpdHigh
          targets := [
            { level := Rendered.fix5 c.pdLow, label := "PD Low" },
            { level := Rendered.fix5 (c.pdLow - pdRange c * 0.618), label := "1.618 Extension" }] } }
  else
    { a with
      bias := "NEUTRAL"
      direction := "WAIT FOR CLEAR SIGNAL"
      strength := 50 }

/-- The state handed to `determineForecastBias` inside `calculateBias`. -/
def preBias (c : Calc) : Analysis :=
  analyzeLiquiditySweeps c (analyzePriceStructure c (analyzeCandlePatterns c (initAnalysis c)))

/-- `calculateBias`: the full pipeline.  The final `generateTradingScenarios`
call only writes the presentational `recommendation` string and is not
modelled. -/
def calculateBias (c : Calc) : Analysis :=
  determineForecastBias c (preBias c)

/-- Validity of one OHLC bar as enforced by `validateInputs` in `main.js`:
`high > low` and open/close within `[low, high]`. -/
def ValidBar (o h l close : ℚ) : Prop :=
  h > l ∧ l ≤ o ∧ o ≤ h ∧ l ≤ close ∧ close ≤ h

instance (o h l close : ℚ) : Decidable (ValidBar o h l close) := by
  unfold ValidBar; infer_instance

/-- Both input bars valid. -/
def ValidPair (c : Calc) : Prop :=
  ValidBar c.dbpdOpen c.dbpdHigh c.dbpdLow c.dbpdClose ∧
    ValidBar c.pdOpen c.pdHigh c.pdLow c.pdClose

instance (c : Calc) : Decidable (ValidPair c) := by
  unfold ValidPair; infer_instance

/-- The ten bias labels `determineForecastBias` can assign. -/
def allBiasLabels : List String :=
  ["BEARISH REVERSAL", "BULLISH REVERSAL", "BULLISH CONTINUATION",
   "BEARISH CONTINUATION", "BULLISH BREAKOUT", "BEARISH BREAKOUT",
   "NEUTRAL - WAIT", "BULLISH", "BEARISH", "NEUTRAL"]

/-- The raw form data handed to `validateInputs` / `new BiasCalculator`:
each numeric field is the `parseFloat` of the corresponding text input,
`none` modelling NaN (unparsable input). -/
structure FormData where
  dbpdOpen : Option ℚ
  dbpdHigh : Option ℚ
  dbpdLow : Option ℚ
  dbpdClose : Option ℚ
  pdOpen : Option ℚ
  pdHigh : Option ℚ
  pdLow : Option ℚ
  pdClose : Option ℚ
  symbol : String
deriving DecidableEq

/-- `validateInputs` from `main.js`: NaN checks, `high > low`, and open/close
range checks for D-2 then D-1, in source order; any failing check alerts and
returns `false`. -/
def validateInputs (d : FormData) : Bool :=
  match d.dbpdHigh, d.dbpdLow, d.dbpdOpen, d.dbpdClose with
  | some dbpdH, some dbpdL, some dbpdO, some dbpdC =>
    if dbpdH ≤ dbpdL then false
    else if dbpdO < dbpdL ∨ dbpdO > dbpdH then false
    else if dbpdC < dbpdL ∨ dbpdC > dbpdH then false
    else
      match d.pdHigh, d.pdLow, d.pdOpen, d.pdClose with
      | some pdH, some pdL, some pdO, some pdC =>
        if pdH ≤ pdL then false
        else if pdO < pdL ∨ pdO > pdH then false
        else if pdC < pdL ∨ pdC > pdH then false
        else true
      | _, _, _, _ => false
  | _, _, _, _ => false

/-- The `BiasCalculator` constructor on parsed form data (all eight fields
parse). -/
def mkCalc (d : FormData) : Option Calc :=
  match d.dbpdHigh, d.dbpdLow, d.dbpdOpen, d.dbpdClose,
      d.pdHigh, d.pdLow, d.pdOpen, d.pdClose with
  | some dh, some dl, some do_, some dc, some ph, some pl, some po, some pc =>
    some { dbpdHigh := dh, dbpdLow := dl, dbpdOpen := do_, dbpdClose := dc
           pdHigh := ph, pdLow := pl, pdOpen := po, pdClose := pc
           symbol := d.symbol }
  | _, _, _, _, _, _, _, _ => none

/-- The error kind of the validation layer (`InvalidInput` in the spec; in the
source an alert plus an early return before the calculator is constructed). -/
inductive EngineError where
  | invalidInput
deriving DecidableEq

/-- `handleFormSubmit`'s engine path: validate, then construct the calculator
and run `calculateBias`; on validation failure no analysis is ever computed. -/
def runEngine (d : FormData) : Except EngineError Analysis :=
  if validateInputs d then
    match mkCalc d with
    | some c => Except.ok (calculateBias c)
    | none => Except.error EngineError.invalidInput
  else Except.error EngineError.invalidInput

/-- Well-formedness of the form data: every field parses and both bars are
valid. -/
def wellFormed (d : FormData) : Bool :=
  match d.dbpdHigh, d.dbpdLow, d.dbpdOpen, d.dbpdClose,
      d.pdHigh, d.pdLow, d.pdOpen, d.pdClose with
  | some dh, some dl, some do_, some dc, some ph, some pl, some po, some pc =>
    decide (ValidBar do_ dh dl dc) && decide (ValidBar po ph pl pc)
  | _, _, _, _, _, _, _, _ => false

/-- The per-setup rendering discipline the source actually follows: the
invalidation level and every target level go through `toFixed(5)`; the sweep
level is emitted as a raw number, and the entry-zone bound sitting at the sweep
level is the same raw number, while the other entry-zone bound is
`toFixed(5)`. -/
def setupRenderingOk (s : TradeSetup) : Bool :=
  s.invalidation.isFix5 && s.targets.all (fun t => t.level.isFix5) &&
    (s.entryZone.1.isFix5 || s.entryZone.2.isFix5) &&
    (s.entryZone.1 = s.sweepLevel || s.entryZone.2 = s.sweepLevel) &&
    !s.sweepLevel.isFix5

/-- The scenario input of the spec: D-2 = O 1.10, H 1.12, L 1.09, C 1.115 and
D-1 = O 1.115, H 1.118, L 1.095, C 1.097. -/
def specScenarioCalc : Calc :=
  { dbpdHigh := 1.12, dbpdLow := 1.09, dbpdOpen := 1.10, dbpdClose := 1.115,
    pdHigh := 1.118, pdLow := 1.095, pdOpen := 1.115, pdClose := 1.097,
    symbol := "N/A" }

/-- A pair with the fixed D-2 bar O 5, C 5, H 10, L 0 and the given D-1 bar. -/
def pairWith (po pc ph pl : ℚ) : Calc :=
  { dbpdHigh := 10, dbpdLow := 0, dbpdOpen := 5, dbpdClose := 5,
    pdHigh := ph, pdLow := pl, pdOpen := po, pdClose := pc, symbol := "X" }

/-- D-1 sweeps the D-2 high, closes back inside, and makes higher highs and
higher lows with a bullish close: rules 1, 3 and 6 all match. -/
def barA : Calc := pairWith 3 9 11 2

/-- D-1 sweeps the D-2 low and closes back inside. -/
def barB : Calc := pairWith 9 3 9.5 (-1)

/-- Confirmed breakout with higher highs and higher lows, bullish close. -/
def barC : Calc := pairWith 3 10.5 11 2

/-- Confirmed breakdown with lower highs and lower lows, bearish close. -/
def barD : Calc := pairWith 7 (-1) 8 (-2)

/-- Inside bar with bullish close. -/
def barE : Calc := pairWith 4 8 9 1

/-- Inside bar with bearish close. -/
def barF : Calc := pairWith 8 4 9 1

/-- Inside bar with close equal to open. -/
def barG : Calc := pairWith 5 5 9 1

/-- Confirmed breakout, equal lows, bearish close, confluence 5. -/
def barH : Calc := pairWith 19 15 20 4

/-- Confirmed breakdown, bullish close, confluence -4. -/
def barI : Calc := pairWith (-6) (-2) 6 (-10)

/-- Confirmed breakout, equal lows, bearish close, confluence 2. -/
def barJ : Calc := pairWith 18 12 20 0

/-- Inside bar whose D-1 candle is a doji with a bullish close. -/
def barK : Calc := pairWith 5 5.05 9 1

/-- Form data whose D-2 bar has high equal to low. -/
def badFormData : FormData :=
  { dbpdOpen := some 1, dbpdHigh := some 1, dbpdLow := some 1,
    dbpdClose := some 1, pdOpen := some 2, pdHigh := some 3, pdLow := some 1,
    pdClose := some 2, symbol := "X" }

/-! ### Frame lemmas: what each pipeline stage leaves untouched -/

theorem dfb_scenario (c : Calc) (a : Analysis) :
    (determineForecastBias c a).scenario = a.scenario := by
  simp only [determineForecastBias]
  split_ifs <;> rfl

theorem dfb_confluence (c : Calc) (a : Analysis) :
    (determineForecastBias c a).confluence = a.confluence := by
  simp only [determineForecastBias]
  split_ifs <;> rfl

theorem liq_scenario (c : Calc) (a : Analysis) :
    (analyzeLiquiditySweeps c a).scenario = a.scenario := by
  simp only [analyzeLiquiditySweeps]
  split_ifs <;> rfl

theorem liq_setups (c : Calc) (a : Analysis) :
    (analyzeLiquiditySweeps c a).bullishSetup = a.bullishSetup ∧
      (analyzeLiquiditySweeps c a).bearishSetup = a.bearishSetup := by
  simp only [analyzeLiquiditySweeps]
  split_ifs <;> exact ⟨rfl, rfl⟩

theorem liq_confluence (c : Calc) (a : Analysis) :
    a.confluence - 1 ≤ (analyzeLiquiditySweeps c a).confluence ∧
      (analyzeLiquiditySweeps c a).confluence ≤ a.confluence + 1 := by
  simp only [analyzeLiquiditySweeps]
  split_ifs <;> (try dsimp only) <;> omega

theorem patternBothBullish_frame (c : Calc) (a : Analysis) :
    (patternBothBullish c a).scenario = a.scenario ∧
      (patternBothBullish c a).bullishSetup = a.bullishSetup ∧
      (patternBothBullish c a).bearishSetup = a.bearishSetup := by
  simp only [patternBothBullish]
  split_ifs <;> exact ⟨rfl, rfl, rfl⟩

theorem patternBothBullish_conf (c : Calc) (a : Analysis) :
    a.confluence ≤ (patternBothBullish c a).confluence ∧
      (patternBothBullish c a).confluence ≤ a.confluence + 2 := by
  simp only [patternBothBullish]
  split_ifs <;> (try dsimp only) <;> omega

theorem patternBothBearish_frame (c : Calc) (a : Analysis) :
    (patternBothBearish c a).scenario = a.scenario ∧
      (patternBothBearish c a).bullishSetup = a.bullishSetup ∧
      (patternBothBearish c a).bearishSetup = a.bearishSetup := by
  simp only [patternBothBearish]
  split_ifs <;> exact ⟨rfl, rfl, rfl⟩

theorem patternBothBearish_conf (c : Calc) (a : Analysis) :
    a.confluence - 2 ≤ (patternBothBearish c a).confluence ∧
      (patternBothBearish c a).confluence ≤ a.confluence := by
  simp only [patternBothBearish]
  split_ifs <;> (try dsimp only) <;> omega

theorem patternReversalUp_frame (c : Calc) (a : Analysis) :
    (patternReversalUp c a).scenario.fakeBreakoutHigh = a.scenario.fakeBreakoutHigh ∧
      (patternReversalUp c a).scenario.fakeBreakoutLow = a.scenario.fakeBreakoutLow ∧
      (patternReversalUp c a).scenario.insideBar = a.scenario.insideBar ∧
      (patternReversalUp c a).scenario.uptrend = a.scenario.uptrend ∧
      (patternReversalUp c a).scenario.downtrend = a.scenario.downtrend ∧
      (patternReversalUp c a).bullishSetup = a.bullishSetup ∧
      (patternReversalUp c a).bearishSetup = a.bearishSetup := by
  simp only [patternReversalUp]
  split_ifs <;> exact ⟨rfl, rfl, rfl, rfl, rfl, rfl, rfl⟩

theorem patternReversalUp_conf (c : Calc) (a : Analysis) :
    a.confluence ≤ (patternReversalUp c a).confluence ∧
      (patternReversalUp c a).confluence ≤ a.confluence + 1 := by
  simp only [patternReversalUp]
  split_ifs <;> (try dsimp only) <;> omega

theorem patternReversalDown_frame (c : Calc) (a : Analysis) :
    (patternReversalDown c a).scenario.fakeBreakoutHigh = a.scenario.fakeBreakoutHigh ∧
      (patternReversalDown c a).scenario.fakeBreakoutLow = a.scenario.fakeBreakoutLow ∧
      (patternReversalDown c a).scenario.insideBar = a.scenario.insideBar ∧
      (patternReversalDown c a).scenario.uptrend = a.scenario.uptrend ∧
      (patternReversalDown c a).scenario.downtrend = a.scenario.downtrend ∧
      (patternReversalDown c a).bullishSetup = a.bullishSetup ∧
      (patternReversalDown c a).bearishSetup = a.bearishSetup := by
  simp only [patternReversalDown]
  split_ifs <;> exact ⟨rfl, rfl, rfl, rfl, rfl, rfl, rfl⟩

theorem patternReversalDown_conf (c : Calc) (a : Analysis) :
    a.confluence - 1 ≤ (patternReversalDown c a).confluence ∧
      (patternReversalDown c a).confluence ≤ a.confluence := by
  simp only [patternReversalDown]
  split_ifs <;> (try dsimp only) <;> omega

theorem patternUpperRejection_frame (c : Calc) (a : Analysis) :
    (patternUpperRejection c a).scenario.fakeBreakoutHigh = a.scenario.fakeBreakoutHigh ∧
      (patternUpperRejection c a).scenario.fakeBreakoutLow = a.scenario.fakeBreakoutLow ∧
      (patternUpperRejection c a).scenario.insideBar = a.scenario.insideBar ∧
      (patternUpperRejection c a).scenario.uptrend = a.scenario.uptrend ∧
      (patternUpperRejection c a).scenario.downtrend = a.scenario.downtrend ∧
      (patternUpperRejection c a).bullishSetup = a.bullishSetup ∧
      (patternUpperRejection c a).bearishSetup = a.bearishSetup := by
  simp only [patternUpperRejection]
  split_ifs <;> exact ⟨rfl, rfl, rfl, rfl, rfl, rfl, rfl⟩

theorem patternUpperRejection_conf (c : Calc) (a : Analysis) :
    a.confluence - 1 ≤ (patternUpperRejection c a).confluence ∧
      (patternUpperRejection c a).confluence ≤ a.confluence := by
  simp only [patternUpperRejection]
  split_ifs <;> (try dsimp only) <;> omega

theorem patternLowerRejection_frame (c : Calc) (a : Analysis) :
    (patternLowerRejection c a).scenario.fakeBreakoutHigh = a.scenario.fakeBreakoutHigh ∧
      (patternLowerRejection c a).scenario.fakeBreakoutLow = a.scenario.fakeBreakoutLow ∧
      (patternLowerRejection c a).scenario.insideBar = a.scenario.insideBar ∧
      (patternLowerRejection c a).scenario.uptrend = a.scenario.uptrend ∧
      (patternLowerRejection c a).scenario.downtrend = a.scenario.downtrend ∧
      (patternLowerRejection c a).bullishSetup = a.bullishSetup ∧
      (patternLowerRejection c a).bearishSetup = a.bearishSetup := by
  simp only [patternLowerRejection]
  split_ifs <;> exact ⟨rfl, rfl, rfl, rfl, rfl, rfl, rfl⟩

theorem patternLowerRejection_conf (c : Calc) (a : Analysis) :
    a.confluence ≤ (patternLowerRejection c a).confluence ∧
      (patternLowerRejection c a).confluence ≤ a.confluence + 1 := by
  simp only [patternLowerRejection]
  split_ifs <;> (try dsimp only) <;> omega

theorem patternIndecision_frame (c : Calc) (a : Analysis) :
    (patternIndecision c a).scenario.fakeBreakoutHigh = a.scenario.fakeBreakoutHigh ∧
      (patternIndecision c a).scenario.fakeBreakoutLow = a.scenario.fakeBreakoutLow ∧
      (patternIndecision c a).scenario.insideBar = a.scenario.insideBar ∧
      (patternIndecision c a).scenario.uptrend = a.scenario.uptrend ∧
      (patternIndecision c a).scenario.downtrend = a.scenario.downtrend ∧
      (patternIndecision c a).bullishSetup = a.bullishSetup ∧
      (patternIndecision c a).bearishSetup = a.bearishSetup := by
  simp only [patternIndecision]
  split_ifs <;> exact ⟨rfl, rfl, rfl, rfl, rfl, rfl, rfl⟩

theorem patternIndecision_conf (c : Calc) (a : Analysis) :
    (patternIndecision c a).confluence = a.confluence := by
  simp only [patternIndecision]
  split_ifs <;> rfl

theorem patterns_frame (c : Calc) (a : Analysis) :
    (analyzeCandlePatterns c a).scenario.fakeBreakoutHigh = a.scenario.fakeBreakoutHigh ∧
      (analyzeCandlePatterns c a).scenario.fakeBreakoutLow = a.scenario.fakeBreakoutLow ∧
      (analyzeCandlePatterns c a).scenario.insideBar = a.scenario.insideBar ∧
      (analyzeCandlePatterns c a).scenario.uptrend = a.scenario.uptrend ∧
      (analyzeCandlePatterns c a).scenario.downtrend = a.scenario.downtrend ∧
      (analyzeCandlePatterns c a).bullishSetup = a.bullishSetup ∧
      (analyzeCandlePatterns c a).bearishSetup = a.bearishSetup := by
  simp only [analyzeCandlePatterns, patternIndecision_frame c,
    patternLowerRejection_frame c, patternUpperRejection_frame c,
    patternReversalDown_frame c, patternReversalUp_frame c,
    patternBothBearish_frame c, patternBothBullish_frame c]
  simp

theorem patterns_confluence (c : Calc) (a : Analysis) :
    a.confluence - 4 ≤ (analyzeCandlePatterns c a).confluence ∧
      (analyzeCandlePatterns c a).confluence ≤ a.confluence + 4 := by
  simp only [analyzeCandlePatterns]
  have h1 := patternBothBullish_conf c a
  have h2 := patternBothBearish_conf c (patternBothBullish c a)
  have h3 := patternReversalUp_conf c (patternBothBearish c (patternBothBullish c a))
  have h4 := patternReversalDown_conf c (patternReversalUp c (patternBothBearish c
    (patternBothBullish c a)))
  have h5 := patternUpperRejection_conf c (patternReversalDown c (patternReversalUp c
    (patternBothBearish c (patternBothBullish c a))))
  have h6 := patternLowerRejection_conf c (patternUpperRejection c (patternReversalDown c
    (patternReversalUp c (patternBothBearish c (patternBothBullish c a)))))
  have h7 := patternIndecision_conf c (patternLowerRejection c (patternUpperRejection c
    (patternReversalDown c (patternReversalUp c (patternBothBearish c
      (patternBothBullish c a))))))
  omega

theorem breakoutHighCheck_flags (c : Calc) (a : Analysis) :
    (breakoutHighCheck c a).scenario.fakeBreakoutHigh =
        (a.scenario.fakeBreakoutHigh ||
          decide (c.pdHigh > c.dbpdHigh ∧ ¬c.pdClose > c.dbpdHigh)) ∧
      (breakoutHighCheck c a).scenario.fakeBreakoutLow = a.scenario.fakeBreakoutLow ∧
      (breakoutHighCheck c a).scenario.insideBar = a.scenario.insideBar ∧
      (breakoutHighCheck c a).scenario.uptrend = a.scenario.uptrend ∧
      (breakoutHighCheck c a).scenario.downtrend = a.scenario.downtrend ∧
      (breakoutHighCheck c a).bullishSetup = a.bullishSetup ∧
      (breakoutHighCheck c a).bearishSetup = a.bearishSetup := by
  simp only [breakoutHighCheck]
  split_ifs <;> simp_all

theorem breakoutHighCheck_conf (c : Calc) (a : Analysis) :
    a.confluence ≤ (breakoutHighCheck c a).confluence ∧
      (breakoutHighCheck c a).confluence ≤ a.confluence + 2 := by
  simp only [breakoutHighCheck]
  split_ifs <;> (try dsimp only) <;> omega

theorem breakoutLowCheck_flags (c : Calc) (a : Analysis) :
    (breakoutLowCheck c a).scenario.fakeBreakoutLow =
        (a.scenario.fakeBreakoutLow ||
          decide (c.pdLow < c.dbpdLow ∧ ¬c.pdClose < c.dbpdLow)) ∧
      (breakoutLowCheck c a).scenario.fakeBreakoutHigh = a.scenario.fakeBreakoutHigh ∧
      (breakoutLowCheck c a).scenario.insideBar = a.scenario.insideBar ∧
      (breakoutLowCheck c a).scenario.uptrend = a.scenario.uptrend ∧
      (breakoutLowCheck c a).scenario.downtrend = a.scenario.downtrend ∧
      (breakoutLowCheck c a).bullishSetup = a.bullishSetup ∧
      (breakoutLowCheck c a).bearishSetup = a.bearishSetup := by
  simp only [breakoutLowCheck]
  split_ifs <;> simp_all

theorem breakoutLowCheck_conf (c : Calc) (a : Analysis) :
    a.confluence - 2 ≤ (breakoutLowCheck c a).confluence ∧
      (breakoutLowCheck c a).confluence ≤ a.confluence := by
  simp only [breakoutLowCheck]
  split_ifs <;> (try dsimp only) <;> omega

theorem insideBarCheck_flags (c : Calc) (a : Analysis) :
    (insideBarCheck c a).scenario.insideBar =
        (a.scenario.insideBar ||
          decide (c.pdHigh ≤ c.dbpdHigh ∧ c.pdLow ≥ c.dbpdLow)) ∧
      (insideBarCheck c a).scenario.fakeBreakoutHigh = a.scenario.fakeBreakoutHigh ∧
      (insideBarCheck c a).scenario.fakeBreakoutLow = a.scenario.fakeBreakoutLow ∧
      (insideBarCheck c a).scenario.uptrend = a.scenario.uptrend ∧
      (insideBarCheck c a).scenario.downtrend = a.scenario.downtrend ∧
      (insideBarCheck c a).bullishSetup = a.bullishSetup ∧
      (insideBarCheck c a).bearishSetup = a.bearishSetup := by
  simp only [insideBarCheck]
  split_ifs <;> simp_all

theorem insideBarCheck_conf (c : Calc) (a : Analysis) :
    (insideBarCheck c a).confluence = a.confluence := by
  simp only [insideBarCheck]
  split_ifs <;> rfl

theorem outsideBarCheck_flags (c : Calc) (a : Analysis) :
    (outsideBarCheck c a).scenario.fakeBreakoutHigh = a.scenario.fakeBreakoutHigh ∧
      (outsideBarCheck c a).scenario.fakeBreakoutLow = a.scenario.fakeBreakoutLow ∧
      (outsideBarCheck c a).scenario.insideBar = a.scenario.insideBar ∧
      (outsideBarCheck c a).scenario.uptrend = a.scenario.uptrend ∧
      (outsideBarCheck c a).scenario.downtrend = a.scenario.downtrend ∧
      (outsideBarCheck c a).bullishSetup = a.bullishSetup ∧
      (outsideBarCheck c a).bearishSetup = a.bearishSetup := by
  simp only [outsideBarCheck]
  split_ifs <;> simp_all

theorem outsideBarCheck_conf (c : Calc) (a : Analysis) :
    a.confluence - 2 ≤ (outsideBarCheck c a).confluence ∧
      (outsideBarCheck c a).confluence ≤ a.confluence + 2 := by
  simp only [outsideBarCheck]
  split_ifs <;> (try dsimp only) <;> omega

theorem uptrendCheck_flags (c : Calc) (a : Analysis) :
    (uptrendCheck c a).scenario.uptrend =
        (a.scenario.uptrend ||
          decide (c.pdHigh > c.dbpdHigh ∧ c.pdLow > c.dbpdLow)) ∧
      (uptrendCheck c a).scenario.fakeBreakoutHigh = a.scenario.fakeBreakoutHigh ∧
      (uptrendCheck c a).scenario.fakeBreakoutLow = a.scenario.fakeBreakoutLow ∧
      (uptrendCheck c a).scenario.insideBar = a.scenario.insideBar ∧
      (uptrendCheck c a).scenario.downtrend = a.scenario.downtrend ∧
      (uptrendCheck c a).bullishSetup = a.bullishSetup ∧
      (uptrendCheck c a).bearishSetup = a.bearishSetup := by
  simp only [uptrendCheck]
  split_ifs <;> simp_all

theorem uptrendCheck_conf (c : Calc) (a : Analysis) :
    a.confluence ≤ (uptrendCheck c a).confluence ∧
      (uptrendCheck c a).confluence ≤ a.confluence + 2 := by
  simp only [uptrendCheck]
  split_ifs <;> (try dsimp only) <;> omega

theorem downtrendCheck_flags (c : Calc) (a : Analysis) :
    (downtrendCheck c a).scenario.downtrend =
        (a.scenario.downtrend ||
          decide (c.pdHigh < c.dbpdHigh ∧ c.pdLow < c.dbpdLow)) ∧
      (downtrendCheck c a).scenario.fakeBreakoutHigh = a.scenario.fakeBreakoutHigh ∧
      (downtrendCheck c a).scenario.fakeBreakoutLow = a.scenario.fakeBreakoutLow ∧
      (downtrendCheck c a).scenario.insideBar = a.scenario.insideBar ∧
      (downtrendCheck c a).scenario.uptrend = a.scenario.uptrend ∧
      (downtrendCheck c a).bullishSetup = a.bullishSetup ∧
      (downtrendCheck c a).bearishSetup = a.bearishSetup := by
  simp only [downtrendCheck]
  split_ifs <;> simp_all

theorem downtrendCheck_conf (c : Calc) (a : Analysis) :
    a.confluence - 2 ≤ (downtrendCheck c a).confluence ∧
      (downtrendCheck c a).confluence ≤ a.confluence := by
  simp only [downtrendCheck]
  split_ifs <;> (try dsimp only) <;> omega

theorem preBias_flags (c : Calc) :
    (preBias c).scenario.fakeBreakoutHigh =
        decide (c.pdHigh > c.dbpdHigh ∧ ¬c.pdClose > c.dbpdHigh) ∧
      (preBias c).scenario.fakeBreakoutLow =
        decide (c.pdLow < c.dbpdLow ∧ ¬c.pdClose < c.dbpdLow) ∧
      (preBias c).scenario.insideBar =
        decide (c.pdHigh ≤ c.dbpdHigh ∧ c.pdLow ≥ c.dbpdLow) ∧
      (preBias c).scenario.uptrend =
        decide (c.pdHigh > c.dbpdHigh ∧ c.pdLow > c.dbpdLow) ∧
      (preBias c).scenario.downtrend =
        decide (c.pdHigh < c.dbpdHigh ∧ c.pdLow < c.dbpdLow) := by
  simp only [preBias, analyzePriceStructure, liq_scenario,
    downtrendCheck_flags, uptrendCheck_flags, outsideBarCheck_flags,
    insideBarCheck_flags, breakoutLowCheck_flags, breakoutHighCheck_flags,
    patterns_frame, initAnalysis, Bool.false_or]
  exact ⟨trivial, trivial, trivial, trivial, trivial⟩

theorem preBias_setups (c : Calc) :
    (preBias c).bullishSetup = none ∧ (preBias c).bearishSetup = none := by
  simp only [preBias, analyzePriceStructure, liq_setups,
    downtrendCheck_flags, uptrendCheck_flags, outsideBarCheck_flags,
    insideBarCheck_flags, breakoutLowCheck_flags, breakoutHighCheck_flags,
    patterns_frame, initAnalysis]
  exact ⟨trivial, trivial⟩

theorem preBias_confluence (c : Calc) :
    -11 ≤ (preBias c).confluence ∧ (preBias c).confluence ≤ 11 := by
  simp only [preBias, analyzePriceStructure]
  have h0 : (initAnalysis c).confluence = 0 := rfl
  have h1 := patterns_confluence c (initAnalysis c)
  have h2 := breakoutHighCheck_conf c (analyzeCandlePatterns c (initAnalysis c))
  have h3 := breakoutLowCheck_conf c (breakoutHighCheck c
    (analyzeCandlePatterns c (initAnalysis c)))
  have h4 := insideBarCheck_conf c (breakoutLowCheck c (breakoutHighCheck c
    (analyzeCandlePatterns c (initAnalysis c))))
  have h5 := outsideBarCheck_conf c (insideBarCheck c (breakoutLowCheck c
    (breakoutHighCheck c (analyzeCandlePatterns c (initAnalysis c)))))
  have h6 := uptrendCheck_conf c (outsideBarCheck c (insideBarCheck c
    (breakoutLowCheck c (breakoutHighCheck c (analyzeCandlePatterns c
      (initAnalysis c))))))
  have h7 := downtrendCheck_conf c (uptrendCheck c (outsideBarCheck c
    (insideBarCheck c (breakoutLowCheck c (breakoutHighCheck c
      (analyzeCandlePatterns c (initAnalysis c)))))))
  have h8 := liq_confluence c (downtrendCheck c (uptrendCheck c (outsideBarCheck c
    (insideBarCheck c (breakoutLowCheck c (breakoutHighCheck c
      (analyzeCandlePatterns c (initAnalysis c))))))))
  omega

/-! ### Claim theorems -/

/-- C4: for every bar with `high > low` whose body percentage
`100 * |close - open| / (high - low)` is below 10, the candle classifier
returns `isDoji = true` with shape `DOJI` and strength 0, regardless of the
direction of the close. -/
theorem dojiOverridesDirection (o close high low : ℚ) (hrange : high > low)
    (hbp : (|close - o| / (high - low)) * 100 < 10) :
    (analyzeCandleType o close high low).isDoji = true ∧
      (analyzeCandleType o close high low).type = "DOJI" ∧
      (analyzeCandleType o close high low).strength = 0 := by
  simp only [analyzeCandleType]
  refine ⟨by simpa using hbp, ?_, ?_⟩ <;> rw [if_pos hbp]

/-- C8: for every bar with `high > low` the classified shape is never
`NEUTRAL`: when close equals open the body is 0, so the body percentage is 0
and the doji branch fires, making the degenerate `NEUTRAL` branch
unreachable. -/
theorem shapeNeverNeutral (o close high low : ℚ) (hrange : high > low) :
    (analyzeCandleType o close high low).type ≠ "NEUTRAL" := by
  simp only [analyzeCandleType]
  by_cases h1 : (|close - o| / (high - low)) * 100 < 10
  · rw [if_pos h1]
    simp
  · have hne : close ≠ o := by
      intro h
      apply h1
      rw [h, sub_self, abs_zero, zero_div, zero_mul]
      norm_num
    rw [if_neg h1]
    rcases lt_or_gt_of_ne hne with h | h
    · rw [if_neg (not_lt.mpr h.le), if_pos h]
      split_ifs <;> simp
    · rw [if_pos h]
      split_ifs <;> simp

/-- C7: when D-1 breaks the D-2 high but does not close above it, the
high-breakout block adds exactly `+1` to the confluence accumulator and sets
`fakeBreakoutHigh` (no extra penalty); mirror for the low side with exactly
`-1`. -/
theorem fakeBreakoutConfluenceDelta (c : Calc) (a : Analysis) :
    (c.pdHigh > c.dbpdHigh → ¬c.pdClose > c.dbpdHigh →
      (breakoutHighCheck c a).confluence = a.confluence + 1 ∧
        (breakoutHighCheck c a).scenario.fakeBreakoutHigh = true) ∧
      (c.pdLow < c.dbpdLow → ¬c.pdClose < c.dbpdLow →
        (breakoutLowCheck c a).confluence = a.confluence - 1 ∧
          (breakoutLowCheck c a).scenario.fakeBreakoutLow = true) := by
  constructor
  · intro hbk hcl
    simp only [breakoutHighCheck, if_pos hbk, if_neg hcl]
    exact ⟨trivial, trivial⟩
  · intro hbk hcl
    simp only [breakoutLowCheck, if_pos hbk, if_neg hcl]
    exact ⟨trivial, trivial⟩

/-- C1 (amended): for every valid bar pair satisfying the rule-3 condition
(uptrend flag set and D-1 bullish) and the rule-6 condition (confluence at
least 3), and on which the `fakeBreakoutHigh` flag is not set, `calculateBias`
resolves to rule 3's label `BULLISH CONTINUATION` and never to rule 6's
`BULLISH`. -/
theorem rule3BeatsRule6 (cal : Calc) (hv : ValidPair cal)
    (hup : (calculateBias cal).scenario.uptrend = true)
    (hbull : (pdCandle cal).isBullish = true)
    (hconf : (calculateBias cal).confluence ≥ 3)
    (hnofake : (calculateBias cal).scenario.fakeBreakoutHigh = false) :
    (calculateBias cal).bias = "BULLISH CONTINUATION" ∧
      (calculateBias cal).bias ≠ "BULLISH" := by
  have hsc : (calculateBias cal).scenario = (preBias cal).scenario :=
    dfb_scenario cal (preBias cal)
  rw [hsc] at hup hnofake
  obtain ⟨hfbh, hfbl, hib, hupd, hdn⟩ := preBias_flags cal
  have hupP : cal.pdHigh > cal.dbpdHigh ∧ cal.pdLow > cal.dbpdLow := by
    rw [hupd] at hup
    simpa using hup
  have hfblFalse : (preBias cal).scenario.fakeBreakoutLow = false := by
    rw [hfbl]
    simp only [decide_eq_false_iff_not]
    rintro ⟨hlow, -⟩
    exact absurd hupP.2 (not_lt.mpr hlow.le)
  refine ⟨?_, ?_⟩ <;>
    simp [calculateBias, determineForecastBias, hnofake, hfblFalse, hup, hbull]

/-- C5: on every valid bar pair with the `insideBar` flag set the result
carries both a bullish and a bearish setup; on every valid pair resolved by
any other rule at most one of the two setups is non-empty. -/
theorem insideBarSetupPolicy (cal : Calc) (hv : ValidPair cal) :
    ((calculateBias cal).scenario.insideBar = true →
      (calculateBias cal).bullishSetup.isSome = true ∧
        (calculateBias cal).bearishSetup.isSome = true) ∧
      ((calculateBias cal).scenario.insideBar = false →
        (calculateBias cal).bullishSetup.isSome = false ∨
          (calculateBias cal).bearishSetup.isSome = false) := by
  have hsc : (calculateBias cal).scenario = (preBias cal).scenario :=
    dfb_scenario cal (preBias cal)
  obtain ⟨hfbh, hfbl, hib, hupd, hdn⟩ := preBias_flags cal
  obtain ⟨hbs0, hss0⟩ := preBias_setups cal
  rw [hsc]
  constructor
  · intro h
    have hP : cal.pdHigh ≤ cal.dbpdHigh ∧ cal.pdLow ≥ cal.dbpdLow := by
      rw [hib] at h
      simpa using h
    have g1 : (preBias cal).scenario.fakeBreakoutHigh = false := by
      rw [hfbh]
      simp only [decide_eq_false_iff_not]
      rintro ⟨hgt, -⟩
      exact absurd hgt (not_lt.mpr hP.1)
    have g2 : (preBias cal).scenario.fakeBreakoutLow = false := by
      rw [hfbl]
      simp only [decide_eq_false_iff_not]
      rintro ⟨hlt, -⟩
      exact absurd hlt (not_lt.mpr hP.2)
    have g3 : (preBias cal).scenario.uptrend = false := by
      rw [hupd]
      simp only [decide_eq_false_iff_not]
      rintro ⟨hgt, -⟩
      exact absurd hgt (not_lt.mpr hP.1)
    have g4 : (preBias cal).scenario.downtrend = false := by
      rw [hdn]
      simp only [decide_eq_false_iff_not]
      rintro ⟨-, hlt⟩
      exact absurd hlt (not_lt.mpr hP.2)
    refine ⟨?_, ?_⟩ <;>
      simp [calculateBias, determineForecastBias, g1, g2, g3, g4, h]
  · intro h
    simp only [calculateBias, determineForecastBias]
    split_ifs <;> simp_all

/-- C10: the classifier's `isBullish`/`isBearish` flags are the raw
close-versus-open comparisons even for dojis; consequently, under the
inside-bar rule the `NEUTRAL - WAIT` verdict occurs exactly when the D-1 close
equals the D-1 open, and a doji D-1 bar whose close differs from its open
still yields `BULLISH BREAKOUT` or `BEARISH BREAKOUT` with strength 70. -/
theorem dojiFlagsAndInsideBarVerdict (cal : Calc) :
    (pdCandle cal).isBullish = decide (cal.pdClose > cal.pdOpen) ∧
      (pdCandle cal).isBearish = decide (cal.pdClose < cal.pdOpen) ∧
      (dbpdCandle cal).isBullish = decide (cal.dbpdClose > cal.dbpdOpen) ∧
      (dbpdCandle cal).isBearish = decide (cal.dbpdClose < cal.dbpdOpen) ∧
      ((calculateBias cal).scenario.insideBar = true →
        (((calculateBias cal).bias = "NEUTRAL - WAIT") ↔
            cal.pdClose = cal.pdOpen) ∧
          ((pdCandle cal).isDoji = true → cal.pdClose ≠ cal.pdOpen →
            ((calculateBias cal).bias = "BULLISH BREAKOUT" ∨
                (calculateBias cal).bias = "BEARISH BREAKOUT") ∧
              (calculateBias cal).strength = 70)) := by
  refine ⟨rfl, rfl, rfl, rfl, ?_⟩
  intro h
  have hsc : (calculateBias cal).scenario = (preBias cal).scenario :=
    dfb_scenario cal (preBias cal)
  rw [hsc] at h
  obtain ⟨hfbh, hfbl, hib, hupd, hdn⟩ := preBias_flags cal
  have hP : cal.pdHigh ≤ cal.dbpdHigh ∧ cal.pdLow ≥ cal.dbpdLow := by
    rw [hib] at h
    simpa using h
  have g1 : (preBias cal).scenario.fakeBreakoutHigh = false := by
    rw [hfbh]
    simp only [decide_eq_false_iff_not]
    rintro ⟨hgt, -⟩
    exact absurd hgt (not_lt.mpr hP.1)
  have g2 : (preBias cal).scenario.fakeBreakoutLow = false := by
    rw [hfbl]
    simp only [decide_eq_false_iff_not]
    rintro ⟨hlt, -⟩
    exact absurd hlt (not_lt.mpr hP.2)
  have g3 : (preBias cal).scenario.uptrend = false := by
    rw [hupd]
    simp only [decide_eq_false_iff_not]
    rintro ⟨hgt, -⟩
    exact absurd hgt (not_lt.mpr hP.1)
  have g4 : (preBias cal).scenario.downtrend = false := by
    rw [hdn]
    simp only [decide_eq_false_iff_not]
    rintro ⟨-, hlt⟩
    exact absurd hlt (not_lt.mpr hP.2)
  rcases lt_trichotomy cal.pdClose cal.pdOpen with hlt | heq | hgt
  · have hform : (calculateBias cal).bias = "BEARISH BREAKOUT" ∧
        (calculateBias cal).strength = 70 := by
      refine ⟨?_, ?_⟩ <;>
        simp [calculateBias, determineForecastBias, g1, g2, g3, g4, h,
          pdCandle, analyzeCandleType, hlt, not_lt.mpr hlt.le]
    refine ⟨?_, fun _ _ => ⟨Or.inr hform.1, hform.2⟩⟩
    rw [hform.1]
    simp only [show ("BEARISH BREAKOUT" = "NEUTRAL - WAIT") = False by simp]
    simp only [false_iff]
    exact hlt.ne
  · have hform : (calculateBias cal).bias = "NEUTRAL - WAIT" := by
      simp [calculateBias, determineForecastBias, g1, g2, g3, g4, h,
        pdCandle, analyzeCandleType, heq, lt_irrefl]
    refine ⟨?_, fun _ hne => absurd heq hne⟩
    rw [hform]
    simp only [true_iff]
    exact heq
  · have hform : (calculateBias cal).bias = "BULLISH BREAKOUT" ∧
        (calculateBias cal).strength = 70 := by
      refine ⟨?_, ?_⟩ <;>
        simp [calculateBias, determineForecastBias, g1, g2, g3, g4, h,
          pdCandle, analyzeCandleType, hgt]
    refine ⟨?_, fun _ _ => ⟨Or.inl hform.1, hform.2⟩⟩
    rw [hform.1]
    simp only [show ("BULLISH BREAKOUT" = "NEUTRAL - WAIT") = False by simp]
    simp only [false_iff]
    exact fun habs => absurd habs hgt.ne'

/-- C3 (amended): for every valid bar pair `calculateBias` returns a bias that
is exactly one of the ten reachable bias labels, and the returned strength
lies in the interval `[0, 100]`. -/
theorem biasLabelAndStrengthRange (cal : Calc) (hv : ValidPair cal) :
    (calculateBias cal).bias ∈ allBiasLabels ∧
      0 ≤ (calculateBias cal).strength ∧ (calculateBias cal).strength ≤ 100 := by
  have hc := preBias_confluence cal
  rcases abs_cases (preBias cal).confluence with ⟨he, hsign⟩ | ⟨he, hsign⟩ <;>
  · simp only [calculateBias, determineForecastBias, he]
    split_ifs <;>
      refine ⟨by simp [allBiasLabels], ?_, ?_⟩ <;>
        (try dsimp only) <;> omega

/-- C9 (amended): in every emitted trade setup the invalidation level and
every target level are fixed-point rendered to 5 decimal places, and so is the
entry-zone bound away from the sweep level; the sweep level itself and the
entry-zone bound sitting at it are emitted as raw unrendered numbers
(`strength` stays an integer percent and `bodyPercent` is rendered to one
decimal). -/
theorem setupRenderingDiscipline (cal : Calc) (hv : ValidPair cal) :
    Option.all setupRenderingOk (calculateBias cal).bullishSetup = true ∧
      Option.all setupRenderingOk (calculateBias cal).bearishSetup = true := by
  obtain ⟨hbs0, hss0⟩ := preBias_setups cal
  simp only [calculateBias, determineForecastBias]
  split_ifs <;>
    simp [hbs0, hss0, setupRenderingOk, Rendered.isFix5, Option.all]

theorem validate_imp_wellFormed (d : FormData) (h : validateInputs d = true) :
    wellFormed d = true := by
  obtain ⟨o1, h1, l1, c1, o2, h2, l2, c2, sym⟩ := d
  cases h1 <;> cases l1 <;> cases o1 <;> cases c1 <;>
    cases h2 <;> cases l2 <;> cases o2 <;> cases c2 <;>
    simp only [validateInputs, wellFormed] at h ⊢ <;>
    first
      | exact h
      | (split_ifs at h with g1 g2 g3 g4 g5 g6
         all_goals push_neg at g2 g3 g5 g6
         all_goals simp only [ValidBar, Bool.and_eq_true, decide_eq_true_eq]
         all_goals exact ⟨⟨not_le.mp g1, g2.1, g2.2, g3.1, g3.2⟩,
           ⟨not_le.mp g4, g5.1, g5.2, g6.1, g6.2⟩⟩)

/-- C6: whenever the submitted form data is not well formed (a field fails to
parse, a bar has `high ≤ low`, or an open/close lies outside `[low, high]`),
the engine path reports `InvalidInput` and never computes any analysis
result. -/
theorem invalidInputRejected (d : FormData) (h : wellFormed d = false) :
    runEngine d = Except.error EngineError.invalidInput := by
  cases hval : validateInputs d with
  | false => simp [runEngine, hval]
  | true => exact absurd (validate_imp_wellFormed d hval) (by simp [h])

/-- C2 (amended): on the spec's scenario input (D-2 = O 1.10, H 1.12, L 1.09,
C 1.115; D-1 = O 1.115, H 1.118, L 1.095, C 1.097) the engine returns bias
`BEARISH BREAKOUT` with strength 70 and a bearish setup whose sweep level is
the raw D-1 low 1.095: the D-1 high 1.118 does not exceed the D-2 high 1.12,
so the pair is an inside bar and no fake breakout is detected. -/
theorem specScenarioOutcome :
    ValidPair specScenarioCalc ∧
      (calculateBias specScenarioCalc).bias = "BEARISH BREAKOUT" ∧
      (calculateBias specScenarioCalc).strength = 70 ∧
      Option.map (fun s => s.sweepLevel)
          (calculateBias specScenarioCalc).bearishSetup =
        some (Rendered.raw 1.095) :=
  of_decide_eq_true (by with_unfolding_all rfl)

/-- C2 counterexample: on the spec's scenario input the bias is not
`BEARISH REVERSAL`, the strength is not 85, and the bearish sweep level is not
1.118. -/
theorem specScenario_cex :
    (calculateBias specScenarioCalc).bias ≠ "BEARISH REVERSAL" ∧
      (calculateBias specScenarioCalc).strength ≠ 85 ∧
      Option.map (fun s => s.sweepLevel.value)
          (calculateBias specScenarioCalc).bearishSetup ≠ some 1.118 :=
  of_decide_eq_true (by with_unfolding_all rfl)

/-- C1 counterexample: a valid pair satisfying both the rule-3 condition
(uptrend with bullish D-1) and the rule-6 condition (confluence at least 3)
on which `calculateBias` returns `BEARISH REVERSAL`: the `fakeBreakoutHigh`
flag is also set and rule 1 preempts rule 3. -/
theorem rule3BeatsRule6_cex :
    ValidPair barA ∧ (calculateBias barA).scenario.uptrend = true ∧
      (pdCandle barA).isBullish = true ∧
      3 ≤ (calculateBias barA).confluence ∧
      (calculateBias barA).bias = "BEARISH REVERSAL" ∧
      (calculateBias barA).bias ≠ "BULLISH CONTINUATION" :=
  of_decide_eq_true (by with_unfolding_all rfl)

/-- C3 counterexample: no nine-element label set can cover the resolver's
output on valid bar pairs, because ten pairwise-distinct labels are all
attained. -/
theorem nineLabelSet_cex :
    ¬ ∃ S : Finset String, S.card = 9 ∧
      ∀ cal : Calc, ValidPair cal → (calculateBias cal).bias ∈ S := by
  rintro ⟨S, hcard, hcov⟩
  have hA : "BEARISH REVERSAL" ∈ S := by
    have h := hcov barA (of_decide_eq_true (by with_unfolding_all rfl))
    rwa [show (calculateBias barA).bias = "BEARISH REVERSAL" from
      of_decide_eq_true (by with_unfolding_all rfl)] at h
  have hB : "BULLISH REVERSAL" ∈ S := by
    have h := hcov barB (of_decide_eq_true (by with_unfolding_all rfl))
    rwa [show (calculateBias barB).bias = "BULLISH REVERSAL" from
      of_decide_eq_true (by with_unfolding_all rfl)] at h
  have hC : "BULLISH CONTINUATION" ∈ S := by
    have h := hcov barC (of_decide_eq_true (by with_unfolding_all rfl))
    rwa [show (calculateBias barC).bias = "BULLISH CONTINUATION" from
      of_decide_eq_true (by with_unfolding_all rfl)] at h
  have hD : "BEARISH CONTINUATION" ∈ S := by
    have h := hcov barD (of_decide_eq_true (by with_unfolding_all rfl))
    rwa [show (calculateBias barD).bias = "BEARISH CONTINUATION" from
      of_decide_eq_true (by with_unfolding_all rfl)] at h
  have hE : "BULLISH BREAKOUT" ∈ S := by
    have h := hcov barE (of_decide_eq_true (by with_unfolding_all rfl))
    rwa [show (calculateBias barE).bias = "BULLISH BREAKOUT" from
      of_decide_eq_true (by with_unfolding_all rfl)] at h
  have hF : "BEARISH BREAKOUT" ∈ S := by
    have h := hcov barF (of_decide_eq_true (by with_unfolding_all rfl))
    rwa [show (calculateBias barF).bias = "BEARISH BREAKOUT" from
      of_decide_eq_true (by with_unfolding_all rfl)] at h
  have hG : "NEUTRAL - WAIT" ∈ S := by
    have h := hcov barG (of_decide_eq_true (by with_unfolding_all rfl))
    rwa [show (calculateBias barG).bias = "NEUTRAL - WAIT" from
      of_decide_eq_true (by with_unfolding_all rfl)] at h
  have hH : "BULLISH" ∈ S := by
    have h := hcov barH (of_decide_eq_true (by with_unfolding_all rfl))
    rwa [show (calculateBias barH).bias = "BULLISH" from
      of_decide_eq_true (by with_unfolding_all rfl)] at h
  have hI : "BEARISH" ∈ S := by
    have h := hcov barI (of_decide_eq_true (by with_unfolding_all rfl))
    rwa [show (calculateBias barI).bias = "BEARISH" from
      of_decide_eq_true (by with_unfolding_all rfl)] at h
  have hJ : "NEUTRAL" ∈ S := by
    have h := hcov barJ (of_decide_eq_true (by with_unfolding_all rfl))
    rwa [show (calculateBias barJ).bias = "NEUTRAL" from
      of_decide_eq_true (by with_unfolding_all rfl)] at h
  have hsub : allBiasLabels.toFinset ⊆ S := by
    intro x hx
    rw [List.mem_toFinset] at hx
    simp only [allBiasLabels, List.mem_cons, List.not_mem_nil, or_false] at hx
    rcases hx with rfl | rfl | rfl | rfl | rfl | rfl | rfl | rfl | rfl | rfl
    exacts [hA, hB, hC, hD, hE, hF, hG, hH, hI, hJ]
  have h10 : allBiasLabels.toFinset.card = 10 := by decide
  have hle := Finset.card_le_card hsub
  omega

/-- C9 counterexample: a concretely emitted bearish setup whose sweep level
and near entry-zone bound are raw numbers rather than `toFixed(5)`
renderings. -/
theorem setupRendering_cex :
    ValidPair specScenarioCalc ∧
      Option.map
          (fun s => (s.sweepLevel, s.sweepLevel.isFix5, s.entryZone.2.isFix5))
          (calculateBias specScenarioCalc).bearishSetup =
        some (Rendered.raw 1.095, false, false) :=
  of_decide_eq_true (by with_unfolding_all rfl)

/-! ### Witnesses -/

theorem rule3BeatsRule6_witness :
    ValidPair barC ∧ (calculateBias barC).bias = "BULLISH CONTINUATION" ∧
      (calculateBias barC).bias ≠ "BULLISH" :=
  have hv : ValidPair barC := of_decide_eq_true (by with_unfolding_all rfl)
  have h := rule3BeatsRule6 barC hv (by with_unfolding_all rfl)
    (by with_unfolding_all rfl) (of_decide_eq_true (by with_unfolding_all rfl))
    (by with_unfolding_all rfl)
  ⟨hv, h.1, h.2⟩

theorem biasLabelAndStrengthRange_witness :
    ValidPair barE ∧ ((calculateBias barE).bias ∈ allBiasLabels ∧
      0 ≤ (calculateBias barE).strength ∧ (calculateBias barE).strength ≤ 100) :=
  have hv : ValidPair barE := of_decide_eq_true (by with_unfolding_all rfl)
  ⟨hv, biasLabelAndStrengthRange barE hv⟩

theorem dojiOverridesDirection_witness :
    (2 : ℚ) > 0 ∧ (|(1.01 : ℚ) - 1| / ((2 : ℚ) - 0)) * 100 < 10 ∧
      ((analyzeCandleType 1 1.01 2 0).isDoji = true ∧
        (analyzeCandleType 1 1.01 2 0).type = "DOJI" ∧
        (analyzeCandleType 1 1.01 2 0).strength = 0) :=
  have h1 : (2 : ℚ) > 0 := of_decide_eq_true (by with_unfolding_all rfl)
  have h2 : (|(1.01 : ℚ) - 1| / ((2 : ℚ) - 0)) * 100 < 10 :=
    of_decide_eq_true (by with_unfolding_all rfl)
  ⟨h1, h2, dojiOverridesDirection 1 1.01 2 0 h1 h2⟩

theorem insideBarSetupPolicy_witness :
    ValidPair barE ∧ (calculateBias barE).scenario.insideBar = true ∧
      (calculateBias barE).bullishSetup.isSome = true ∧
      (calculateBias barE).bearishSetup.isSome = true :=
  have hv : ValidPair barE := of_decide_eq_true (by with_unfolding_all rfl)
  have hib : (calculateBias barE).scenario.insideBar = true := by
    with_unfolding_all rfl
  have h := (insideBarSetupPolicy barE hv).1 hib
  ⟨hv, hib, h.1, h.2⟩

theorem invalidInputRejected_witness :
    wellFormed badFormData = false ∧
      runEngine badFormData = Except.error EngineError.invalidInput :=
  have h : wellFormed badFormData = false := by with_unfolding_all rfl
  ⟨h, invalidInputRejected badFormData h⟩

theorem fakeBreakoutConfluenceDelta_witness :
    (barA.pdHigh > barA.dbpdHigh ∧ ¬barA.pdClose > barA.dbpdHigh ∧
      (breakoutHighCheck barA (initAnalysis barA)).confluence =
        (initAnalysis barA).confluence + 1 ∧
      (breakoutHighCheck barA (initAnalysis barA)).scenario.fakeBreakoutHigh
        = true) ∧
    (barB.pdLow < barB.dbpdLow ∧ ¬barB.pdClose < barB.dbpdLow ∧
      (breakoutLowCheck barB (initAnalysis barB)).confluence =
        (initAnalysis barB).confluence - 1 ∧
      (breakoutLowCheck barB (initAnalysis barB)).scenario.fakeBreakoutLow
        = true) :=
  have hA1 : barA.pdHigh > barA.dbpdHigh :=
    of_decide_eq_true (by with_unfolding_all rfl)
  have hA2 : ¬barA.pdClose > barA.dbpdHigh :=
    of_decide_eq_true (by with_unfolding_all rfl)
  have hB1 : barB.pdLow < barB.dbpdLow :=
    of_decide_eq_true (by with_unfolding_all rfl)
  have hB2 : ¬barB.pdClose < barB.dbpdLow :=
    of_decide_eq_true (by with_unfolding_all rfl)
  have hHigh := (fakeBreakoutConfluenceDelta barA (initAnalysis barA)).1 hA1 hA2
  have hLow := (fakeBreakoutConfluenceDelta barB (initAnalysis barB)).2 hB1 hB2
  ⟨⟨hA1, hA2, hHigh.1, hHigh.2⟩, ⟨hB1, hB2, hLow.1, hLow.2⟩⟩

theorem shapeNeverNeutral_witness :
    (2 : ℚ) > 0 ∧ (analyzeCandleType 1 1.5 2 0).type ≠ "NEUTRAL" :=
  have h : (2 : ℚ) > 0 := of_decide_eq_true (by with_unfolding_all rfl)
  ⟨h, shapeNeverNeutral 1 1.5 2 0 h⟩

theorem setupRenderingDiscipline_witness :
    ValidPair barC ∧
      Option.all setupRenderingOk (calculateBias barC).bullishSetup = true ∧
      Option.all setupRenderingOk (calculateBias barC).bearishSetup = true :=
  have hv : ValidPair barC := of_decide_eq_true (by with_unfolding_all rfl)
  have h := setupRenderingDiscipline barC hv
  ⟨hv, h.1, h.2⟩

theorem dojiFlagsAndInsideBarVerdict_witness :
    (calculateBias barK).scenario.insideBar = true ∧
      (pdCandle barK).isDoji = true ∧ barK.pdClose ≠ barK.pdOpen ∧
      ((calculateBias barK).bias = "BULLISH BREAKOUT" ∨
        (calculateBias barK).bias = "BEARISH BREAKOUT") ∧
      (calculateBias barK).strength = 70 :=
  have hib : (calculateBias barK).scenario.insideBar = true := by
    with_unfolding_all rfl
  have hd : (pdCandle barK).isDoji = true := by with_unfolding_all rfl
  have hne : barK.pdClose ≠ barK.pdOpen :=
    of_decide_eq_true (by with_unfolding_all rfl)
  have h := ((dojiFlagsAndInsideBarVerdict barK).2.2.2.2 hib).2 hd hne
  ⟨hib, hd, hne, h.1, h.2⟩
